import Mathlib

/-!
Shallow embedding of the schema-based multi-tenancy layer
(`django_tenants`): the postgresql backend's connection schema routing
(`postgresql_backend/base.py`), the tenant lifecycle
(`models.py`), the scoped-context helpers (`utils.py`) and the tenant
resolution middleware (`middleware/main.py`, `middleware/default.py`).

Python strings are modelled as `String`, machine-level details (psycopg2
cursors, the live database session) as explicit state; raising is
modelled with `Except`.
-/

namespace DjangoTenants

/-! ## Schema-name validation (`postgresql_backend/base.py`, lines 24-43)

`SQL_IDENTIFIER_RE = re.compile(r'^[_a-zA-Z][_a-zA-Z0-9]{,62}$')` and
`SQL_SCHEMA_NAME_RESERVED_RE = re.compile(r'^pg_', re.IGNORECASE)`,
with `re.match`.  Python's `$` matches at the end of the string or just
before a lone trailing newline, and the character classes cannot consume
a newline, so the pattern accepts exactly: (a core matching the strict
pattern) optionally followed by one `'\n'`.  We embed that semantics
faithfully. -/

/-- Character class `[_a-zA-Z]` of `SQL_IDENTIFIER_RE` (first character). -/
def isIdentFirst (c : Char) : Bool :=
  c = '_' || ('a' ≤ c && c ≤ 'z') || ('A' ≤ c && c ≤ 'Z')

/-- Character class `[_a-zA-Z0-9]` of `SQL_IDENTIFIER_RE` (subsequent characters). -/
def isIdentRest (c : Char) : Bool :=
  isIdentFirst c || ('0' ≤ c && c ≤ '9')

/-- Remove one trailing `'\n'` if present: the positions at which Python's
`$` anchor can match are the end of the string and the position before a
single final newline. -/
def stripTrailingNewline : List Char → List Char
  | [] => []
  | [c] => if c = '\n' then [] else [c]
  | c :: rest => c :: stripTrailingNewline rest

/-- Strict body of `SQL_IDENTIFIER_RE`: one `[_a-zA-Z]` character followed
by at most 62 `[_a-zA-Z0-9]` characters (`{,62}` in Python is `{0,62}`). -/
def matchesIdentifierCore : List Char → Bool
  | [] => false
  | c :: rest => isIdentFirst c && rest.all isIdentRest && decide (rest.length ≤ 62)

/-- `_is_valid_identifier` (base.py line 28): `re.match` of
`SQL_IDENTIFIER_RE` under Python `$` semantics. -/
def _is_valid_identifier (s : String) : Bool :=
  matchesIdentifierCore (stripTrailingNewline s.data)

/-- `SQL_SCHEMA_NAME_RESERVED_RE.match(name)`: does the string start with
`pg_`, case-insensitively? -/
def startsWithPgReserved (s : String) : Bool :=
  match s.data with
  | p :: g :: u :: _ => (p = 'p' || p = 'P') && (g = 'g' || g = 'G') && u = '_'
  | _ => false

/-- `_is_valid_schema_name` (base.py line 37). -/
def _is_valid_schema_name (s : String) : Bool :=
  _is_valid_identifier s && !startsWithPgReserved s

/-! Spec-side rendering of the identifier contract, used to compare the
code's validator with the specification's words: "matches
`^[A-Za-z_][A-Za-z0-9_]{0,62}$` and does not begin with the
case-insensitive prefix `pg_`", read with strict (mathematical) anchors:
`$` is the end of the string. -/

/-- Spec character class `[A-Za-z_]`. -/
def specIdentFirst (c : Char) : Bool :=
  ('A' ≤ c && c ≤ 'Z') || ('a' ≤ c && c ≤ 'z') || c = '_'

/-- Spec character class `[A-Za-z0-9_]`. -/
def specIdentRest (c : Char) : Bool :=
  ('A' ≤ c && c ≤ 'Z') || ('a' ≤ c && c ≤ 'z') || ('0' ≤ c && c ≤ '9') || c = '_'

/-- Spec-side strict match of `^[A-Za-z_][A-Za-z0-9_]{0,62}$` on a
character list: one first-class character followed by at most 62
rest-class characters. -/
def spec_matches_core : List Char → Bool
  | [] => false
  | c :: rest => specIdentFirst c && rest.all specIdentRest && decide (rest.length ≤ 62)

/-- Spec-side strict match of `^[A-Za-z_][A-Za-z0-9_]{0,62}$`: the whole
string (no trailing-newline allowance) matches. -/
def spec_matches_identifier (s : String) : Bool :=
  spec_matches_core s.data

/-- Spec-side case-insensitive `pg_` prefix test. -/
def spec_starts_with_pg (s : String) : Bool :=
  match s.data with
  | p :: g :: u :: _ => (p = 'p' || p = 'P') && (g = 'g' || g = 'G') && u = '_'
  | _ => false

/-! ## Settings (`utils.py` getters and `base.py` module constants) -/

/-- The Django settings the embedded layer reads:
`PUBLIC_SCHEMA_NAME` (default `'public'`), `PG_EXTRA_SEARCH_PATHS`
(default `[]`), `TENANT_LIMIT_SET_CALLS` (default `False`),
`TENANT_CREATION_FAKES_MIGRATIONS` (default `False`),
`TENANT_BASE_SCHEMA` (default unset). -/
structure Settings where
  publicSchemaName : String
  extraSearchPaths : List String
  limitSetCalls : Bool
  creationFakesMigrations : Bool
  tenantBaseSchema : Option String
  deriving Repr, DecidableEq

/-! ## Tenant entities (`models.py` TenantMixin, `base.py` FakeTenant) -/

/-- A `TenantMixin` row: `schema_name` plus the class flags
`auto_create_schema` (default true) and `auto_drop_schema` (default
false); `pk = none` means the row is unsaved (`self.pk is None`). -/
structure Tenant where
  schema_name : String
  auto_create_schema : Bool
  auto_drop_schema : Bool
  pk : Option Nat
  deriving Repr, DecidableEq

/-- What the connection's `tenant` slot can hold: a full `TenantMixin`
instance, or the schema-name-only `FakeTenant` placeholder used by the
backend layer. -/
inductive TenantHandle where
  | real (t : Tenant)
  | fake (schema_name : String)
  deriving Repr, DecidableEq

/-- `tenant.schema_name` on either kind of handle. -/
def TenantHandle.schemaName : TenantHandle → String
  | .real t => t.schema_name
  | .fake s => s

/-! ## Connection state and routing (`postgresql_backend/base.py`) -/

/-- The mutable state `DatabaseWrapper` adds to a connection:
`self.tenant`, `self.schema_name`, `self.include_public_schema`,
`self.search_path_set`. `tenant`/`schema_name` start as `None` in
`__init__` before `set_schema_to_public` runs. -/
structure ConnState where
  tenant : Option TenantHandle
  schema_name : Option String
  include_public_schema : Bool
  search_path_set : Bool
  deriving Repr, DecidableEq

/-- `DatabaseWrapper._set_schema(schema_name, include_public)`
(base.py line 95): records the name and flag and marks the search path
as not yet applied.  (`set_settings_schema` only mirrors the choice into
`settings_dict` and is not part of the routed state.) -/
def _set_schema (c : ConnState) (schema_name : String) (include_public : Bool) : ConnState :=
  { c with schema_name := some schema_name,
           include_public_schema := include_public,
           search_path_set := false }

/-- `DatabaseWrapper.set_tenant(tenant, include_public=True)`
(base.py line 67). -/
def set_tenant (c : ConnState) (t : TenantHandle) (include_public : Bool) : ConnState :=
  _set_schema { c with tenant := some t } t.schemaName include_public

/-- `DatabaseWrapper.set_schema(schema_name, include_public=True)`
(base.py line 75): stores a `FakeTenant` wrapping the name. -/
def set_schema (c : ConnState) (schema_name : String) (include_public : Bool) : ConnState :=
  _set_schema { c with tenant := some (.fake schema_name) } schema_name include_public

/-- `DatabaseWrapper.set_schema_to_public()` (base.py line 83):
`FakeTenant` on the public schema, `include_public` left at its default
`True`. -/
def set_schema_to_public (S : Settings) (c : ConnState) : ConnState :=
  _set_schema { c with tenant := some (.fake S.publicSchemaName) } S.publicSchemaName true

/-- `protect_case` (utils.py line 156): double-quote an identifier. -/
def protect_case (s : String) : String := "\"" ++ s ++ "\""

/-- The raw schema names of the search path `_cursor` builds
(base.py lines 134-141): `[public]` when the active schema is the public
one, `[active, public]` when `include_public_schema`, else `[active]`;
always followed by `PG_EXTRA_SEARCH_PATHS`. -/
def search_path_names (S : Settings) (schema_name : String) (include_public : Bool) :
    List String :=
  (if schema_name = S.publicSchemaName then [S.publicSchemaName]
   else if include_public then [schema_name, S.publicSchemaName]
   else [schema_name]) ++ S.extraSearchPaths

/-- The quoted search path exactly as `_cursor` assembles it: every
element passed through `protect_case`. -/
def search_paths (S : Settings) (schema_name : String) (include_public : Bool) :
    List String :=
  (search_path_names S schema_name include_public).map protect_case

/-- The exceptions the embedded layer can raise. -/
inductive PyErr where
  | validationError          -- ValidationError from _check_schema_name / _check_identifier
  | improperlyConfigured     -- "Database schema not set. ..." in _cursor
  | improperSettings         -- ImproperlyConfigured from get_creation_fakes_migrations
  | cantCreateOutsidePublic  -- "Can't create tenant outside the public schema. ..."
  | cantUpdateOutsideOwn     -- "Can't update tenant outside it's own schema or the public schema. ..."
  | cantDeleteOutsideOwn     -- "Can't delete tenant outside it's own schema or the public schema. ..."
  | ddlError                 -- CREATE SCHEMA / clone_schema failed because the schema exists
  | migrationFailed          -- the migrate_schemas command raised
  | cloneFailed              -- the clone_schema stored procedure raised
  | doesNotExist             -- tenant_model.DoesNotExist
  | http404                  -- django.http.Http404
  deriving Repr, DecidableEq

/-- The search-path application step of `DatabaseWrapper._cursor`
(base.py lines 124-161).  `execFails` models the swallowed
`DatabaseError`/`InternalError` of the `SET search_path` execution
(line 156): the error is ignored, only `search_path_set` stays false so
the next cursor retries.  Returns the updated state and `some paths`
when a `SET search_path` was attempted with `paths`, `none` when the
call-limiting optimization skipped the block entirely. -/
def cursor_apply_search_path (S : Settings) (execFails : Bool) (c : ConnState) :
    Except PyErr (ConnState × Option (List String)) :=
  if !S.limitSetCalls || !c.search_path_set then
    match c.schema_name with
    | none => .error .improperlyConfigured
    | some sn =>
      if sn = "" then .error .improperlyConfigured
      else if !(_is_valid_schema_name sn) then .error .validationError
      else
        let paths := search_paths S sn c.include_public_schema
        if execFails then .ok ({ c with search_path_set := false }, some paths)
        else .ok ({ c with search_path_set := true }, some paths)
  else .ok (c, none)

/-! ## Tenant lifecycle (`models.py`)

The observable database state we track per tenant: whether the tenant's
row exists in the public tenant table (`rowExists`), whether the
tenant's namespace exists in `pg_namespace` (`schemaExists`), and the
connection's routed state.  `hasattr(connection, 'schema_name')` is
always true for this backend (`__init__` assigns it), so `has_schema`
is embedded as `true`.  External collaborators that can fail are
modelled by an oracle. -/

/-- Failure oracle for the external provisioning collaborators: does the
`migrate_schemas` command raise, does the `clone_schema` stored
procedure raise? -/
structure Oracle where
  migrateFails : Bool
  cloneFails : Bool
  deriving Repr, DecidableEq

/-- The state a lifecycle operation acts on. -/
structure World where
  rowExists : Bool
  schemaExists : Bool
  conn : ConnState
  deriving Repr, DecidableEq

/-- `TenantMixin.delete_schema(allow_delete=True)` (models.py
lines 127-141): refuse unless the connection's active schema is the
tenant's own or the public one; if the namespace exists and
`allow_delete`, switch the session into the tenant's scope (public
included) and issue `DROP SCHEMA ... CASCADE`. -/
def delete_schema (S : Settings) (t : Tenant) (allow_delete : Bool) (w : World) :
    Except PyErr Unit × World :=
  if w.conn.schema_name = some t.schema_name ∨ w.conn.schema_name = some S.publicSchemaName then
    if w.schemaExists ∧ allow_delete then
      let w1 := { w with conn := set_schema w.conn t.schema_name true }
      (.ok (), { w1 with schemaExists := false })
    else (.ok (), w)
  else (.error .cantDeleteOutsideOwn, w)

/-- The body of `create_schema`'s provisioning `try` block (models.py
lines 161-175): under `sync_schema`, either the clone strategy
(`clone_schema` — utils.py line 390 — first sets the connection to
public, then calls the `clone_schema` procedure, which raises if the
destination already exists and is transactional, so a failed clone
creates nothing) or the migrate strategy (`CREATE SCHEMA`, which fails
if the schema exists, then the `migrate_schemas` command). -/
def create_schema_provision (S : Settings) (O : Oracle) (_t : Tenant)
    (sync_schema : Bool) (w : World) : Except PyErr Unit × World :=
  if sync_schema then
    if S.creationFakesMigrations then
      let w1 := { w with conn := set_schema_to_public S w.conn }
      if w1.schemaExists then (.error .ddlError, w1)
      else if O.cloneFails then (.error .cloneFailed, w1)
      else (.ok (), { w1 with schemaExists := true })
    else
      if w.schemaExists then (.error .ddlError, w)
      else
        let w1 := { w with schemaExists := true }
        if O.migrateFails then (.error .migrationFailed, w1)
        else (.ok (), w1)
  else (.ok (), w)

/-- The `except` clause of `create_schema`'s provisioning `try`
(models.py lines 176-178): `self.delete_schema()` then re-raise the
original exception `e` (an exception from the compensating
`delete_schema` itself replaces it). -/
def create_schema_compensate (S : Settings) (t : Tenant) (e : PyErr) (w : World) :
    Except PyErr (Option Bool) × World :=
  match delete_schema S t true w with
  | (.ok (), w3) => (.error e, w3)
  | (.error e2, w3) => (.error e2, w3)

/-- `TenantMixin.create_schema(check_if_exists, sync_schema, verbosity)`
(models.py lines 143-180).  The result value is the Python return value:
`some false` for the early `return False` when `check_if_exists` and the
namespace exists; `none` for the success path, which has no `return`
statement and therefore returns Python `None`.  Any exception inside the
provisioning `try` triggers `self.delete_schema()` and is re-raised
(an exception raised by that compensating `delete_schema` replaces it);
on the success path `connection.set_schema_to_public()` runs
unconditionally, even when `sync_schema` is false. -/
def create_schema (S : Settings) (O : Oracle) (t : Tenant)
    (check_if_exists sync_schema : Bool) (w : World) :
    Except PyErr (Option Bool) × World :=
  if !(_is_valid_schema_name t.schema_name) then (.error .validationError, w)
  else if check_if_exists ∧ w.schemaExists then (.ok (some false), w)
  else if S.creationFakesMigrations ∧ S.tenantBaseSchema = none then
    -- get_creation_fakes_migrations (utils.py line 38) raises before the try block
    (.error .improperSettings, w)
  else
    match create_schema_provision S O t sync_schema w with
    | (.ok (), w2) => (.ok none, { w2 with conn := set_schema_to_public S w2.conn })
    | (.error e, w2) => create_schema_compensate S t e w2

/-- `TenantMixin.delete(force_drop=False)` (models.py lines 117-125):
drop the namespace when `auto_drop_schema or force_drop`, then delete
the row. -/
def delete (S : Settings) (t : Tenant) (force_drop : Bool) (w : World) :
    Except PyErr Unit × World :=
  match delete_schema S t (t.auto_drop_schema || force_drop) w with
  | (.ok (), w1) => (.ok (), { w1 with rowExists := false })
  | (.error e, w1) => (.error e, w1)

/-- `TenantMixin.save(verbosity=1)` (models.py lines 75-111).  Guards:
a new row may only be created while the active schema is the public one;
an existing row may only be updated while the active schema is the
tenant's own or the public one.  After the row write, a new tenant with
`auto_create_schema` provisions its namespace
(`create_schema(check_if_exists=True)`); on failure the row is deleted
with a forced drop (`self.delete(force_drop=True)`) and the exception is
re-raised.  (The `self.schema_name = None` assignment on the
existing-row repair path mutates the raising instance only and carries no
database state, so it is not tracked.)  Returns the saved tenant
(with its fresh `pk` on insert). -/
def save (S : Settings) (O : Oracle) (t : Tenant) (w : World) :
    Except PyErr Tenant × World :=
  if t.pk = none ∧ ¬ (w.conn.schema_name = some S.publicSchemaName) then
    (.error .cantCreateOutsidePublic, w)
  else if ¬ (t.pk = none) ∧
      ¬ (w.conn.schema_name = some t.schema_name ∨
         w.conn.schema_name = some S.publicSchemaName) then
    (.error .cantUpdateOutsideOwn, w)
  else
    let t1 : Tenant := if t.pk = none then { t with pk := some 1 } else t
    let w1 : World := { w with rowExists := true }
    if t.pk = none ∧ t.auto_create_schema then
      match create_schema S O t1 true true w1 with
      | (.ok _, w2) => (.ok t1, w2)  -- post_schema_sync signal: no state
      | (.error e, w2) =>
        match delete S t1 true w2 with
        | (.ok (), w3) => (.error e, w3)
        | (.error e2, w3) => (.error e2, w3)
    else if t.pk = none then
      (.ok t1, w1)  -- schema_needs_to_be_sync signal: no state
    else if ¬ w1.schemaExists ∧ t.auto_create_schema then
      match create_schema S O t1 true true w1 with
      | (.ok _, w2) => (.ok t1, w2)
      | (.error e, w2) =>
        match delete_schema S t1 true w2 with
        | (.ok (), w3) => (.error e, w3)
        | (.error e2, w3) => (.error e2, w3)
    else (.ok t1, w1)

/-! ## Scoped-context helpers (`utils.py` lines 62-89)

`schema_context` and `tenant_context` save `connection.tenant` and
`connection.include_public_schema`, switch, run the body, and in a
`finally` restore: `set_schema_to_public()` when the previous tenant was
`None`, else `set_tenant(previous_tenant, previous_include_public)`.
The body is an arbitrary state transformer that may raise (`Except`);
the `finally` runs on both exit paths and the body's outcome is
propagated unchanged. -/

/-- The `finally` block shared by `schema_context` and `tenant_context`. -/
def ctx_restore (S : Settings) (previous_tenant : Option TenantHandle)
    (previous_include_public : Bool) (c : ConnState) : ConnState :=
  match previous_tenant with
  | none => set_schema_to_public S c
  | some t => set_tenant c t previous_include_public

/-- `schema_context(schema_name, include_public=True)` wrapped around a
body: returns the final connection state and the body's outcome. -/
def schema_context_run (S : Settings) (schema_name : String) (include_public : Bool)
    (c : ConnState) (body : ConnState → ConnState × Except PyErr Unit) :
    ConnState × Except PyErr Unit :=
  let bres := body (set_schema c schema_name include_public)
  (ctx_restore S c.tenant c.include_public_schema bres.1, bres.2)

/-- `tenant_context(tenant, include_public=True)` wrapped around a body. -/
def tenant_context_run (S : Settings) (t : TenantHandle) (include_public : Bool)
    (c : ConnState) (body : ConnState → ConnState × Except PyErr Unit) :
    ConnState × Except PyErr Unit :=
  let bres := body (set_tenant c t include_public)
  (ctx_restore S c.tenant c.include_public_schema bres.1, bres.2)

/-! ## Tenant resolution middleware (`middleware/main.py`,
`middleware/default.py`) -/

/-- The request principal: `request.user` with `is_authenticated()`,
`is_staff`, and the tenant bound to it (`tenant_model.objects.get(user=user)`
raises `DoesNotExist` when there is none). -/
structure ReqUser where
  is_authenticated : Bool
  is_staff : Bool
  tenant_binding : Option Tenant
  deriving Repr, DecidableEq

/-- `TenantMainMiddleware.get_tenant(tenant_model, user)` (main.py
lines 20-25): no user raises `DoesNotExist('No user logged in')`; an
authenticated non-staff user is looked up (raising `DoesNotExist` when
unbound); any other user falls off the end, returning Python `None`. -/
def main_get_tenant (user : Option ReqUser) : Except PyErr (Option Tenant) :=
  match user with
  | none => .error .doesNotExist
  | some u =>
    if u.is_authenticated && !u.is_staff then
      match u.tenant_binding with
      | some t => .ok (some t)
      | none => .error .doesNotExist
    else .ok none

/-- `DefaultTenantMiddleware` configuration: the overridable
`DEFAULT_SCHEMA_NAME` class attribute (`None` in the base class). -/
structure MwConfig where
  default_schema_name : Option String
  deriving Repr, DecidableEq

/-- `DefaultTenantMiddleware.get_tenant` (default.py lines 19-30), with
`lookup` standing for `tenant_model.objects.get(schema_name=...)`
(`none` means that lookup raises `DoesNotExist`).
`SuspiciousTenantMiddleware` (not among the sources) is assumed to
inherit `get_tenant` from `TenantMainMiddleware` unchanged.
The clause `except self.TENANT_NOT_FOUND_EXCEPTION or
self.NO_TENANT_EXCEPTION:` evaluates its operand eagerly:
`Http404 or Http404` is `Http404`, so only `Http404` is caught by the
fallback branch.  Every other exception — notably the `DoesNotExist`
the base resolver raises — reaches the bare `except Exception` handler,
which prints the exception (and its `message` attribute) and falls off
the end, returning Python `None`. -/
def default_get_tenant (S : Settings) (cfg : MwConfig)
    (lookup : String → Option Tenant) (user : Option ReqUser) :
    Except PyErr (Option Tenant) :=
  match main_get_tenant user with
  | .ok t => .ok t
  | .error e =>
    if e = .http404 then
      let schema_name :=
        match cfg.default_schema_name with
        | some s => if s = "" then S.publicSchemaName else s
        | none => S.publicSchemaName
      match lookup schema_name with
      | some t => .ok (some t)
      | none => .error .doesNotExist
    else .ok none

/-- Decidable equality for `Except`, so that concrete runs of the
embedded operations can be settled by `decide`. -/
instance {ε α : Type} [DecidableEq ε] [DecidableEq α] : DecidableEq (Except ε α) := fun x y =>
  match x, y with
  | .ok a, .ok b => decidable_of_iff (a = b) (by simp)
  | .error a, .error b => decidable_of_iff (a = b) (by simp)
  | .ok _, .error _ => .isFalse (fun h => nomatch h)
  | .error _, .ok _ => .isFalse (fun h => nomatch h)

/-! ## Concrete fixtures (default settings, a public-routed connection,
sample tenants) used to exercise the definitions. -/

/-- Default settings: `PUBLIC_SCHEMA_NAME = 'public'`, no extra search
paths, no call limiting, migrate strategy. -/
def S0 : Settings := ⟨"public", [], false, false, none⟩

/-- Oracle where every external collaborator succeeds. -/
def O0 : Oracle := ⟨false, false⟩

/-- A connection as `DatabaseWrapper.__init__` leaves it: fields start
unset, then `set_schema_to_public()` runs. -/
def connPublic : ConnState := set_schema_to_public S0 ⟨none, none, true, false⟩

/-- A saved tenant on schema `t1`. -/
def t1x : Tenant := ⟨"t1", true, false, some 1⟩

/-- A world in which `t1x`'s row exists but its namespace does not, on a
public-routed connection. -/
def w7 : World := World.mk true false connPublic

/-- A saved tenant on schema `acme`. -/
def acmeT : Tenant := ⟨"acme", true, false, some 3⟩

/-- The tenant row of the public schema itself (the compat middleware
fetches exactly such a row). -/
def pubT : Tenant := ⟨"public", true, false, some 4⟩

/-- A tenant table holding `acmeT` and `pubT`, as a lookup by schema
name. -/
def mwLookup : String → Option Tenant :=
  fun s => if s = "acme" then some acmeT else if s = "public" then some pubT else none

/-- An authenticated, non-staff principal with no tenant bound to it. -/
def noBindingUser : ReqUser := ⟨true, false, none⟩

/-! ## Helper lemmas: the code's character classes agree with the
specification's. -/

lemma identFirst_eq_spec (c : Char) : isIdentFirst c = specIdentFirst c := by
  rw [Bool.eq_iff_iff]
  simp only [isIdentFirst, specIdentFirst, Bool.or_eq_true, Bool.and_eq_true,
    decide_eq_true_eq]
  tauto

lemma identRest_eq_spec (c : Char) : isIdentRest c = specIdentRest c := by
  rw [Bool.eq_iff_iff]
  simp only [isIdentRest, isIdentFirst, specIdentRest, Bool.or_eq_true, Bool.and_eq_true,
    decide_eq_true_eq]
  tauto

lemma matchesCore_eq_spec (l : List Char) : matchesIdentifierCore l = spec_matches_core l := by
  cases l with
  | nil => rfl
  | cons c rest =>
    have hf : isIdentFirst = specIdentFirst := funext identFirst_eq_spec
    have hr : isIdentRest = specIdentRest := funext identRest_eq_spec
    simp only [matchesIdentifierCore, spec_matches_core, hf, hr]

lemma startsWithPg_eq_spec (s : String) : startsWithPgReserved s = spec_starts_with_pg s := rfl

lemma compensate_fst_not_ok (S : Settings) (t : Tenant) (e : PyErr) (w : World)
    (v : Option Bool) : (create_schema_compensate S t e w).1 ≠ .ok v := by
  unfold create_schema_compensate
  split <;> simp_all

/-! ## Claims -/

/-- C1 (counterexample): as stated, "for any two distinct tenants A and
B, the path computed after setTenant(A) never contains B's schema name"
fails: the tenant row of the public schema itself is a legitimate tenant
(`pubT`, distinct from the tenant on `t1`), and after `set_tenant` of
the `t1` tenant the computed search path contains `public`, which is
`pubT`'s schema name. -/
theorem search_path_contains_other_tenant_counterexample :
    (Tenant.mk "t1" true false (some 1)).schema_name ≠ pubT.schema_name ∧
    (set_tenant connPublic (.real (Tenant.mk "t1" true false (some 1))) true).schema_name
        = some "t1" ∧
    pubT.schema_name ∈ search_path_names S0 "t1" true := by decide

/-- C1 (amended): after `set_tenant(A)` the connection's active schema is
A's; the computed search path is exactly `[shared, ...extraPaths]` when
the active schema equals the shared schema, `[active, shared,
...extraPaths]` when `include_public` holds, and `[active,
...extraPaths]` otherwise; and for distinct tenants A and B the path
never contains B's schema name, provided B's schema name is neither the
shared schema name nor one of the configured extra search paths. -/
theorem search_path_shape (S : Settings) (c : ConnState) (A B : Tenant) (ip : Bool) :
    (set_tenant c (.real A) ip).schema_name = some A.schema_name ∧
    (A.schema_name = S.publicSchemaName →
      search_path_names S A.schema_name ip = S.publicSchemaName :: S.extraSearchPaths) ∧
    (A.schema_name ≠ S.publicSchemaName → ip = true →
      search_path_names S A.schema_name ip =
        A.schema_name :: S.publicSchemaName :: S.extraSearchPaths) ∧
    (A.schema_name ≠ S.publicSchemaName → ip = false →
      search_path_names S A.schema_name ip = A.schema_name :: S.extraSearchPaths) ∧
    (B.schema_name ≠ A.schema_name → B.schema_name ≠ S.publicSchemaName →
      B.schema_name ∉ S.extraSearchPaths →
      B.schema_name ∉ search_path_names S A.schema_name ip) := by
  refine ⟨rfl, ?_, ?_, ?_, ?_⟩
  · intro h; simp [search_path_names, h]
  · intro h hip; simp [search_path_names, h, hip]
  · intro h hip; simp [search_path_names, h, hip]
  · intro hBA hBP hBX
    simp only [search_path_names, List.mem_append, not_or]
    refine ⟨?_, hBX⟩
    by_cases hA : A.schema_name = S.publicSchemaName
    · simp [hA, hBP]
    · cases ip <;> simp [hA, hBA, hBP]

/-- C1 (witness): under default settings, the search path for tenant
`t1` does not contain the distinct tenant schema `t2`. -/
theorem search_path_shape_witness :
    (Tenant.mk "t2" true false (some 2)).schema_name ≠ t1x.schema_name ∧
    (Tenant.mk "t2" true false (some 2)).schema_name ∉
      search_path_names S0 t1x.schema_name true := by
  have h := search_path_shape S0 connPublic t1x (Tenant.mk "t2" true false (some 2)) true
  exact ⟨by decide, h.2.2.2.2 (by decide) (by decide) (by decide)⟩

/-- C2 (counterexample): the claim "the validator accepts n iff n matches
`^[A-Za-z_][A-Za-z0-9_]{0,62}$` and does not begin with pg_" fails at
`"a\n"`: Python's `re.match` `$` anchor also matches just before a
single trailing newline, so the code accepts `"a\n"` although the
pattern, read with strict anchors, does not match it. -/
theorem schema_name_validator_counterexample :
    _is_valid_schema_name "a\n" = true ∧
    spec_matches_identifier "a\n" = false ∧
    spec_starts_with_pg "a\n" = false := by decide

/-- C2 (amended): for every string n, the schema-name validator accepts
n iff n, after removing a single trailing newline (Python's `re` `$`
semantics), matches `^[A-Za-z_][A-Za-z0-9_]{0,62}$`, and n does not
begin with the case-insensitive prefix `pg_`. -/
theorem schema_name_validator_amended (s : String) :
    _is_valid_schema_name s =
      (spec_matches_core (stripTrailingNewline s.data) && !spec_starts_with_pg s) := by
  unfold _is_valid_schema_name _is_valid_identifier
  rw [matchesCore_eq_spec, startsWithPg_eq_spec]

/-- C3: whenever the search-path application block of `_cursor` runs
(call limiting off, or the path not yet set), an unset or empty active
schema raises `ImproperlyConfigured` — the operation errors rather than
defaulting the path — and with a nonempty active schema that raise is
unreachable. -/
theorem cursor_unset_schema_raises (S : Settings) (ef : Bool) (c : ConnState)
    (hblock : S.limitSetCalls = false ∨ c.search_path_set = false) :
    ((c.schema_name = none ∨ c.schema_name = some "") →
        cursor_apply_search_path S ef c = .error .improperlyConfigured) ∧
    (∀ sn, c.schema_name = some sn → sn ≠ "" →
        cursor_apply_search_path S ef c ≠ .error .improperlyConfigured) := by
  have hb : (!S.limitSetCalls || !c.search_path_set) = true := by
    rcases hblock with h | h <;> simp [h]
  constructor
  · rintro (h | h) <;> simp [cursor_apply_search_path, hb, h]
  · intro sn hsn hne
    simp only [cursor_apply_search_path, hb, if_true, hsn]
    simp only [hne, if_false]
    split
    · simp
    · split <;> simp

/-- C3 (witness): with default settings, a cursor on a connection whose
schema was never set raises `ImproperlyConfigured`, while the
public-routed connection does not. -/
theorem cursor_unset_schema_raises_witness :
    (S0.limitSetCalls = false ∨ (ConnState.mk none none true false).search_path_set = false) ∧
    cursor_apply_search_path S0 false (ConnState.mk none none true false)
      = .error .improperlyConfigured ∧
    cursor_apply_search_path S0 false connPublic ≠ .error .improperlyConfigured := by
  refine ⟨Or.inl rfl, ?_, ?_⟩
  · exact (cursor_unset_schema_raises S0 false _ (Or.inl rfl)).1 (Or.inl rfl)
  · exact (cursor_unset_schema_raises S0 false connPublic (Or.inl rfl)).2 "public" rfl
      (by decide)

/-- C4: a new tenant row can only be saved while the active schema is
the public one, and an existing row only while the active schema is the
tenant's own or the public one; in both failure cases the world
(including the row store) is unchanged. -/
theorem save_guards (S : Settings) (O : Oracle) (t : Tenant) (w : World) :
    (t.pk = none → w.conn.schema_name ≠ some S.publicSchemaName →
      save S O t w = (.error .cantCreateOutsidePublic, w)) ∧
    (t.pk ≠ none → w.conn.schema_name ≠ some t.schema_name →
      w.conn.schema_name ≠ some S.publicSchemaName →
      save S O t w = (.error .cantUpdateOutsideOwn, w)) := by
  constructor
  · intro h1 h2
    unfold save
    rw [if_pos ⟨h1, h2⟩]
  · intro h1 h2 h3
    unfold save
    rw [if_neg (fun hc => h1 hc.1), if_pos ⟨h1, fun hc => hc.elim h2 h3⟩]

/-- C4 (witness): creating a tenant while routed to `t2` fails and
writes nothing; updating tenant `t1` while routed to `t3` fails with the
cross-tenant-write error and writes nothing. -/
theorem save_guards_witness :
    ((Tenant.mk "t1" true false none).pk = none ∧
     (World.mk false false (set_schema connPublic "t2" true)).conn.schema_name ≠
        some S0.publicSchemaName ∧
     save S0 O0 (Tenant.mk "t1" true false none)
        (World.mk false false (set_schema connPublic "t2" true)) =
       (.error .cantCreateOutsidePublic,
        World.mk false false (set_schema connPublic "t2" true))) ∧
    (t1x.pk ≠ none ∧
     save S0 O0 t1x (World.mk true true (set_schema connPublic "t3" true)) =
       (.error .cantUpdateOutsideOwn, World.mk true true (set_schema connPublic "t3" true))) := by
  refine ⟨⟨rfl, by decide, ?_⟩, ⟨by decide, ?_⟩⟩
  · exact (save_guards S0 O0 (Tenant.mk "t1" true false none)
      (World.mk false false (set_schema connPublic "t2" true))).1 rfl (by decide)
  · exact (save_guards S0 O0 t1x
      (World.mk true true (set_schema connPublic "t3" true))).2 (by decide) (by decide)
      (by decide)

/-- C5: saving a new tenant with `auto_create_schema` when the migration
runner fails after `CREATE SCHEMA` deletes the just-inserted row with a
forced namespace drop and re-raises: afterwards the tenant row and the
namespace are both gone. -/
theorem save_compensating_delete (S : Settings) (O : Oracle) (t : Tenant) (w : World)
    (hpk : t.pk = none) (hauto : t.auto_create_schema = true)
    (hvalid : _is_valid_schema_name t.schema_name = true)
    (hconn : w.conn.schema_name = some S.publicSchemaName)
    (hnoschema : w.schemaExists = false)
    (hfakes : S.creationFakesMigrations = false)
    (hmig : O.migrateFails = true) :
    (save S O t w).1 = .error .migrationFailed ∧
    (save S O t w).2.rowExists = false ∧
    (save S O t w).2.schemaExists = false := by
  simp [save, create_schema, create_schema_provision, create_schema_compensate,
    delete_schema, delete, set_schema, _set_schema,
    hpk, hauto, hvalid, hconn, hnoschema, hfakes, hmig]

/-- C5 (witness): the concrete run — new tenant `t1`, public-routed
connection, failing migration runner — ends with no row and no
namespace. -/
theorem save_compensating_delete_witness :
    ((Tenant.mk "t1" true false none).pk = none ∧
     _is_valid_schema_name "t1" = true ∧
     (World.mk false false connPublic).conn.schema_name = some S0.publicSchemaName) ∧
    ((save S0 (Oracle.mk true false) (Tenant.mk "t1" true false none)
        (World.mk false false connPublic)).1 = .error .migrationFailed ∧
     (save S0 (Oracle.mk true false) (Tenant.mk "t1" true false none)
        (World.mk false false connPublic)).2.rowExists = false ∧
     (save S0 (Oracle.mk true false) (Tenant.mk "t1" true false none)
        (World.mk false false connPublic)).2.schemaExists = false) := by
  refine ⟨⟨rfl, by decide, by decide⟩, ?_⟩
  exact save_compensating_delete S0 (Oracle.mk true false) (Tenant.mk "t1" true false none)
    (World.mk false false connPublic) rfl rfl (by decide) (by decide) rfl rfl rfl

/-- C6: `delete_schema` on a connection whose active schema is neither
the tenant's own nor the public one fails closed before any drop,
leaving the world (namespace included) unchanged; and a drop only ever
happens when the active schema is the tenant's or the public one, the
namespace exists, and `allow_delete` is set. -/
theorem delete_schema_guard (S : Settings) (t : Tenant) (allow : Bool) (w : World) :
    (w.conn.schema_name ≠ some t.schema_name →
     w.conn.schema_name ≠ some S.publicSchemaName →
        delete_schema S t allow w = (.error .cantDeleteOutsideOwn, w)) ∧
    ((delete_schema S t allow w).2.schemaExists ≠ w.schemaExists →
        (w.conn.schema_name = some t.schema_name ∨
         w.conn.schema_name = some S.publicSchemaName) ∧
        w.schemaExists = true ∧ allow = true) := by
  constructor
  · intro h1 h2
    unfold delete_schema
    rw [if_neg (fun hc => hc.elim h1 h2)]
  · intro hch
    unfold delete_schema at hch
    by_cases hg : w.conn.schema_name = some t.schema_name ∨
        w.conn.schema_name = some S.publicSchemaName
    · rw [if_pos hg] at hch
      by_cases hd : w.schemaExists = true ∧ allow = true
      · exact ⟨hg, hd⟩
      · rw [if_neg hd] at hch
        exact absurd rfl hch
    · rw [if_neg hg] at hch
      exact absurd rfl hch

/-- C6 (witness): dropping `t1`'s schema while routed to `t2` raises and
the namespace `t1` still exists afterward. -/
theorem delete_schema_guard_witness :
    ((World.mk true true (set_schema connPublic "t2" true)).conn.schema_name ≠
        some t1x.schema_name) ∧
    delete_schema S0 t1x true (World.mk true true (set_schema connPublic "t2" true)) =
      (.error .cantDeleteOutsideOwn, World.mk true true (set_schema connPublic "t2" true)) ∧
    (delete_schema S0 t1x true
        (World.mk true true (set_schema connPublic "t2" true))).2.schemaExists = true := by
  have h := (delete_schema_guard S0 t1x true
      (World.mk true true (set_schema connPublic "t2" true))).1 (by decide) (by decide)
  exact ⟨by decide, h, by rw [h]⟩

/-- C7: `create_schema(check_if_exists=True)` on a fresh schema creates
the namespace but returns Python `None` (the success path has no
`return` statement), not `True` as the docstring and the claim state; a
second call returns `False` with no side effects, leaving exactly one
namespace — so the pair of calls returns `(None, False)`, not
`(True, False)`. -/
theorem create_schema_returns_none :
    (create_schema S0 O0 t1x true true w7).1 = .ok none ∧
    (create_schema S0 O0 t1x true true w7).1 ≠ .ok (some true) ∧
    (create_schema S0 O0 t1x true true w7).2.schemaExists = true ∧
    (create_schema S0 O0 t1x true true
        (create_schema S0 O0 t1x true true w7).2).1 = .ok (some false) ∧
    (create_schema S0 O0 t1x true true
        (create_schema S0 O0 t1x true true w7).2).2 =
      (create_schema S0 O0 t1x true true w7).2 := by decide

/-- C8: for a principal with no tenant binding the base resolver raises
`DoesNotExist`, but `DefaultTenantMiddleware.get_tenant`'s first except
clause — `except TENANT_NOT_FOUND_EXCEPTION or NO_TENANT_EXCEPTION`,
whose operand evaluates to `Http404` — does not catch it; the
`DoesNotExist` lands in the bare `except Exception` handler, which
yields no tenant.  The configured default `acme` (and, with no default,
the public tenant) is present in the registry yet is never resolved. -/
theorem default_fallback_never_fires :
    main_get_tenant (some noBindingUser) = .error .doesNotExist ∧
    default_get_tenant S0 (MwConfig.mk (some "acme")) mwLookup (some noBindingUser) = .ok none ∧
    default_get_tenant S0 (MwConfig.mk (some "acme")) mwLookup (some noBindingUser) ≠
      .ok (some acmeT) ∧
    default_get_tenant S0 (MwConfig.mk none) mwLookup (some noBindingUser) = .ok none ∧
    default_get_tenant S0 (MwConfig.mk none) mwLookup (some noBindingUser) ≠
      .ok (some pubT) ∧
    mwLookup "acme" = some acmeT ∧ mwLookup "public" = some pubT := by decide

/-- C9: `schema_context` and `tenant_context` restore the connection's
previous tenant handle and include-public flag on every exit path —
the body's outcome (normal or raising) is irrelevant — so afterwards the
connection's tenant, schema name and include-public flag equal their
values from before the scope, given the connection invariant that its
tenant handle is set and carries the active schema name. -/
theorem context_helpers_restore (S : Settings) (sn : String) (t2 : TenantHandle) (ip : Bool)
    (c : ConnState) (body : ConnState → ConnState × Except PyErr Unit)
    (t : TenantHandle)
    (ht : c.tenant = some t) (hs : c.schema_name = some t.schemaName) :
    ((schema_context_run S sn ip c body).1.tenant = c.tenant ∧
     (schema_context_run S sn ip c body).1.schema_name = c.schema_name ∧
     (schema_context_run S sn ip c body).1.include_public_schema = c.include_public_schema) ∧
    ((tenant_context_run S t2 ip c body).1.tenant = c.tenant ∧
     (tenant_context_run S t2 ip c body).1.schema_name = c.schema_name ∧
     (tenant_context_run S t2 ip c body).1.include_public_schema = c.include_public_schema) := by
  constructor <;>
    simp [schema_context_run, tenant_context_run, ctx_restore, ht, hs,
      set_tenant, _set_schema]

/-- C9 (witness): a `schema_context` whose body switches schemas and then
raises still restores tenant `t1`, schema `t1` and the include-public
flag `false` it entered with. -/
theorem context_helpers_restore_witness :
    ((ConnState.mk (some (.fake "t1")) (some "t1") false true).tenant = some (.fake "t1") ∧
     (ConnState.mk (some (.fake "t1")) (some "t1") false true).schema_name =
        some (TenantHandle.fake "t1").schemaName) ∧
    ((schema_context_run S0 "x" true (ConnState.mk (some (.fake "t1")) (some "t1") false true)
        (fun c => (set_schema c "y" true, .error .validationError))).1.tenant =
          some (.fake "t1") ∧
     (schema_context_run S0 "x" true (ConnState.mk (some (.fake "t1")) (some "t1") false true)
        (fun c => (set_schema c "y" true, .error .validationError))).1.schema_name =
          some "t1" ∧
     (schema_context_run S0 "x" true (ConnState.mk (some (.fake "t1")) (some "t1") false true)
        (fun c => (set_schema c "y" true, .error .validationError))).1.include_public_schema =
          false) := by
  have h := context_helpers_restore S0 "x" (.fake "t2") true
      (ConnState.mk (some (.fake "t1")) (some "t1") false true)
      (fun c => (set_schema c "y" true, .error .validationError))
      (.fake "t1") rfl rfl
  exact ⟨⟨rfl, rfl⟩, h.1⟩

/-- C10: whenever `create_schema` completes without raising and without
the early already-exists return (result `Except.ok none`), the
connection is reset to the public schema — whatever schema was active
before and even when `sync_schema` is false. -/
theorem create_schema_resets_to_public (S : Settings) (O : Oracle) (t : Tenant)
    (cie ss : Bool) (w : World)
    (h : (create_schema S O t cie ss w).1 = .ok none) :
    (create_schema S O t cie ss w).2.conn.schema_name = some S.publicSchemaName ∧
    (create_schema S O t cie ss w).2.conn.tenant = some (.fake S.publicSchemaName) ∧
    (create_schema S O t cie ss w).2.conn.include_public_schema = true := by
  by_cases hv : _is_valid_schema_name t.schema_name
  · by_cases hce : cie = true ∧ w.schemaExists = true
    · simp [create_schema, hv, hce] at h
    · by_cases hfk : S.creationFakesMigrations = true ∧ S.tenantBaseSchema = none
      · simp [create_schema, hv, hce, hfk] at h
      · rcases hprov : create_schema_provision S O t ss w with ⟨r, w2⟩
        cases r with
        | ok u =>
          cases u
          simp [create_schema, hv, hce, hfk, hprov, set_schema_to_public, _set_schema]
        | error e =>
          simp only [create_schema, hv, Bool.not_true, Bool.false_eq_true, if_false,
            hce, hfk, hprov, if_neg] at h
          exact absurd h (compensate_fst_not_ok S t e w2 none)
  · simp [create_schema, hv] at h

/-- C10 (witness): a `create_schema` with `sync_schema = false` on a
connection routed to `t2` completes with `None` and leaves the
connection routed to the public schema. -/
theorem create_schema_resets_to_public_witness :
    ((create_schema S0 O0 t1x false false
        (World.mk true false (set_schema connPublic "t2" true))).1 = .ok none) ∧
    ((create_schema S0 O0 t1x false false
        (World.mk true false (set_schema connPublic "t2" true))).2.conn.schema_name =
          some S0.publicSchemaName ∧
     (create_schema S0 O0 t1x false false
        (World.mk true false (set_schema connPublic "t2" true))).2.conn.tenant =
          some (.fake S0.publicSchemaName) ∧
     (create_schema S0 O0 t1x false false
        (World.mk true false (set_schema connPublic "t2" true))).2.conn.include_public_schema =
          true) := by
  refine ⟨by decide, ?_⟩
  exact create_schema_resets_to_public S0 O0 t1x false false
    (World.mk true false (set_schema connPublic "t2" true)) (by decide)

end DjangoTenants
